import Mathlib

/-!
Shallow embedding of the remote append-only log shipper in `src/logger.js`
of thiago-diegoli/fatec-api-aws: the module-level sequence-token state, the
provisioning routine `ensureCloudWatchSetup`, the append routine
`enviarLogCloudWatch`, and the event builders `logInfo` / `logError` /
`gerarLog`.  JavaScript values relevant to the component are modelled by
`JsVal` (distinguishing `null` from `undefined`), JS objects holding log
events by finite partial maps `String → Option JsVal` with spread
semantics, and the remote store's responses by explicit data.
-/

/-- JavaScript values that can flow through the logger: `null`, `undefined`,
strings, the empty object literal `\x7b\x7d` (the default `error` argument),
and the wrapper object `\x7b error \x7d` built by `logError`. -/
inductive JsVal where
  | null
  | undef
  | str (s : String)
  | emptyObj
  | errWrap (e : JsVal)
  deriving DecidableEq

/-- JavaScript truthiness for the values of `JsVal`: `null`, `undefined` and
the empty string are falsy; non-empty strings and objects are truthy. -/
def truthy : JsVal → Bool
  | JsVal.null => false
  | JsVal.undef => false
  | JsVal.str s => s ≠ ""
  | JsVal.emptyObj => true
  | JsVal.errWrap _ => true

/-- The request context argument `req` of `logInfo` / `logError`: either the
JS value `null`, the JS value `undefined` (argument absent), or an Express
request object carrying an `originalUrl` property. -/
inductive ReqCtx where
  | null
  | undef
  | mk (originalUrl : JsVal)
  deriving DecidableEq

/-- Plain property access `req.originalUrl`: throws a `TypeError` when `req`
is `null` or `undefined`, as in JavaScript. -/
def getOriginalUrl : ReqCtx → Except String JsVal
  | ReqCtx.null => Except.error "TypeError: cannot read originalUrl of null"
  | ReqCtx.undef => Except.error "TypeError: cannot read originalUrl of undefined"
  | ReqCtx.mk u => Except.ok u

/-- Optional chaining `req?.originalUrl`: yields `undefined` instead of
throwing when `req` is `null` or `undefined`. -/
def optOriginalUrl : ReqCtx → JsVal
  | ReqCtx.null => JsVal.undef
  | ReqCtx.undef => JsVal.undef
  | ReqCtx.mk u => u

/-- A log-event object, modelled as a partial map from property names to
values (a JS object). -/
def EventObj : Type := String → Option JsVal

/-- The empty extra-fields object `\x7b\x7d`, the default for the `extra`
parameter. -/
def emptyExtra : EventObj := fun _ => none

/-- Source `gerarLog(level, message, rota, extra)`: the object literal
`\x7b level, message, route: rota, ...extra \x7d`.  JS object-spread
semantics: a key written later overwrites one written earlier, so a key of
`extra` wins over the three reserved keys. -/
def gerarLog (level message rota : JsVal) (extra : EventObj) : EventObj := fun k =>
  match extra k with
  | some v => some v
  | none =>
    if k = "level" then some level
    else if k = "message" then some message
    else if k = "route" then some rota
    else none

/-- Source `logInfo(message, req, extra)`, event-construction part: it reads
`req.originalUrl` with a plain (unguarded) property access, so it throws when
`req` is `null` or `undefined`; otherwise it builds the event through
`gerarLog` with level `"info"`. -/
def logInfoEvent (message : JsVal) (req : ReqCtx) (extra : EventObj) :
    Except String EventObj :=
  (getOriginalUrl req).map (fun url => gerarLog (JsVal.str "info") message url extra)

/-- Source `logError`: `const url = req !== null ? req?.originalUrl : ''`.
Only a literally `null` context maps to the empty string; an `undefined`
context falls into the optional-chaining branch and yields `undefined`. -/
def logErrorUrl : ReqCtx → JsVal
  | ReqCtx.null => JsVal.str ""
  | ReqCtx.undef => JsVal.undef
  | ReqCtx.mk u => u

/-- Source `logError(message, req, error, extra)`, event-construction part:
builds the event through `gerarLog` with level `"error"` and the url from
`logErrorUrl`, then, when `error` is truthy, sets `log.error = \x7b error \x7d`. -/
def logErrorEvent (message : JsVal) (req : ReqCtx) (error : JsVal)
    (extra : EventObj) : EventObj :=
  let log := gerarLog (JsVal.str "error") message (logErrorUrl req) extra
  if truthy error then
    fun k => if k = "error" then some (JsVal.errWrap error) else log k
  else log

/-- The environment-supplied configuration: `LOG_GROUP_NAME` and
`LOG_STREAM_NAME`. -/
structure Config where
  LOG_GROUP_NAME : String
  LOG_STREAM_NAME : String
  deriving DecidableEq

/-- One entry of the `logEvents` array of a `putLogEvents` request: the
serialized event text and a timestamp. -/
structure LogEventEntry where
  message : String
  timestamp : Nat
  deriving DecidableEq

/-- The parameter object built by `enviarLogCloudWatch` for `putLogEvents`;
`sequenceToken` holds the raw JS value of the module variable. -/
structure PutParams where
  logEvents : List LogEventEntry
  logGroupName : String
  logStreamName : String
  sequenceToken : JsVal
  deriving DecidableEq

/-- The token actually presented on the wire for a parameter value: the
aws-sdk serializer skips members whose value is `null` or `undefined`, so a
token is presented iff the value is a string. -/
def presented : JsVal → Option String
  | JsVal.str s => some s
  | _ => none

/-- The `params` object of `enviarLogCloudWatch`: a single-entry `logEvents`
array carrying the serialized event `msg` and the current time, the
configured group and stream names, and the current in-memory token. -/
def buildPutParams (cfg : Config) (tok : JsVal) (msg : String) (now : Nat) :
    PutParams :=
  { logEvents := [{ message := msg, timestamp := now }]
    logGroupName := cfg.LOG_GROUP_NAME
    logStreamName := cfg.LOG_STREAM_NAME
    sequenceToken := tok }

/-- Outcome of the remote store's `putLogEvents` call: success carrying
`nextSequenceToken` (an optional string field of the response), rejection of
the presented token (`InvalidSequenceTokenException`), or any other error. -/
inductive PutResult where
  | success (nextSequenceToken : Option String)
  | invalidSequenceToken
  | otherError
  deriving DecidableEq

/-- Reading an optional string field of an aws-sdk response as a JS value: a
missing field reads as `undefined`. -/
def jsOfOpt : Option String → JsVal
  | some s => JsVal.str s
  | none => JsVal.undef

/-- Result of one `enviarLogCloudWatch` call: the new value of the module
variable `sequenceToken`, whether the event was delivered, and whether an
exception escaped to the caller. -/
structure SendOutcome where
  newToken : JsVal
  delivered : Bool
  threw : Bool
  deriving DecidableEq

/-- Source `enviarLogCloudWatch`, state-update part: on success the token is
replaced by `response.nextSequenceToken`; on any error the `catch` block only
writes to the local console, so the token is unchanged, the event is not
delivered, and nothing propagates to the caller. -/
def enviarLogCloudWatch (tok : JsVal) (res : PutResult) : SendOutcome :=
  match res with
  | PutResult.success next =>
      { newToken := jsOfOpt next, delivered := true, threw := false }
  | PutResult.invalidSequenceToken =>
      { newToken := tok, delivered := false, threw := false }
  | PutResult.otherError =>
      { newToken := tok, delivered := false, threw := false }

/-- The sequence of `putLogEvents` requests one `enviarLogCloudWatch` call
issues: exactly one, built from the current token; the `catch` block does not
call `putLogEvents` again. -/
def enviarLogRequests (cfg : Config) (tok : JsVal) (msg : String) (now : Nat) :
    List PutParams :=
  [buildPutParams cfg tok msg now]

/-- An entry of the `describeLogGroups` response. -/
structure LogGroup where
  logGroupName : String
  deriving DecidableEq

/-- An entry of the `describeLogStreams` response; `uploadSequenceToken` is
an optional field (absent for a stream never appended to). -/
structure LogStream where
  logStreamName : String
  uploadSequenceToken : Option String
  deriving DecidableEq

/-- The two describe responses consumed by `ensureCloudWatchSetup`:
`logGroups` filtered by the group-name prefix and `logStreams` filtered by
the stream-name prefix. -/
structure DescribeResponses where
  logGroups : List LogGroup
  logStreams : List LogStream
  deriving DecidableEq

/-- Result of one `ensureCloudWatchSetup` call: whether `createLogGroup` and
`createLogStream` were called, and the new value of the module variable
`sequenceToken`. -/
structure EnsureOutcome where
  createdGroup : Bool
  createdStream : Bool
  newToken : JsVal
  deriving DecidableEq

/-- Source `ensureCloudWatchSetup`: creates the group when no entry of the
group-describe response bears the exact configured name; creates the stream
exactly when the stream-describe response list is empty (`length === 0`), and
otherwise stores `streams.logStreams[0].uploadSequenceToken` — the first
entry of the prefix-filtered list, whatever its exact name — as the token. -/
def ensureCloudWatchSetup (cfg : Config) (tok : JsVal) (resp : DescribeResponses) :
    EnsureOutcome :=
  let createdGroup :=
    (resp.logGroups.find? (fun g => g.logGroupName == cfg.LOG_GROUP_NAME)).isNone
  match resp.logStreams with
  | [] =>
      { createdGroup := createdGroup, createdStream := true, newToken := tok }
  | s :: _ =>
      { createdGroup := createdGroup, createdStream := false
        newToken := jsOfOpt s.uploadSequenceToken }

/-- Extra-fields object carrying a `level` key, used to exercise the spread
in `gerarLog` on a reserved-key collision. -/
def extraOverride : EventObj := fun k =>
  if k = "level" then some (JsVal.str "overridden") else none

/-- Configuration used in the concrete `ensureCloudWatchSetup` runs below. -/
def cfgA : Config := { LOG_GROUP_NAME := "grp", LOG_STREAM_NAME := "app-stream" }

/-- Describe responses in which the prefix-filtered stream list holds one
stream whose name extends, but does not equal, the configured stream name. -/
def respNearMiss : DescribeResponses :=
  { logGroups := [{ logGroupName := "grp" }]
    logStreams := [{ logStreamName := "app-stream-old", uploadSequenceToken := some "tokZ" }] }

/-- Describe responses in which the prefix-filtered stream list is empty. -/
def respEmpty : DescribeResponses :=
  { logGroups := [{ logGroupName := "grp" }], logStreams := [] }

/-- Auxiliary: reading an optional response field never yields the JS value
`null`. -/
theorem jsOfOpt_ne_null (o : Option String) : jsOfOpt o ≠ JsVal.null := by
  cases o <;> simp [jsOfOpt]

/-- C1 counterexample: with in-memory token `"token-1"`, a token-mismatch
rejection leaves the token at `"token-1"` — it is not reset to `null`, so the
claimed reset-and-retry behaviour does not occur. -/
theorem C1_mismatch_counterexample :
    (enviarLogCloudWatch (JsVal.str "token-1") PutResult.invalidSequenceToken).newToken
      = JsVal.str "token-1" ∧
    (enviarLogCloudWatch (JsVal.str "token-1") PutResult.invalidSequenceToken).newToken
      ≠ JsVal.null := by
  exact ⟨rfl, by decide⟩

/-- C1 (amended): when the remote store reports a sequence-token mismatch,
the `catch` block only logs locally: the in-memory token is left unchanged
(never reset to `null`), no exception escapes, and the append is not retried —
each `enviarLogCloudWatch` call issues exactly one `putLogEvents` request. -/
theorem C1_mismatch_no_reset_no_retry (cfg : Config) (tok : JsVal) (msg : String) (now : Nat) :
    (enviarLogCloudWatch tok PutResult.invalidSequenceToken).newToken = tok ∧
    (enviarLogCloudWatch tok PutResult.invalidSequenceToken).threw = false ∧
    (enviarLogRequests cfg tok msg now).length = 1 := by
  exact ⟨rfl, rfl, rfl⟩

/-- C2: when the remote store rejects the presented token as stale, the event
is not delivered, the in-memory token is unchanged, no exception reaches the
caller, and the request built by the next append call presents exactly the
token this call presented. -/
theorem C2_stale_rejection_swallowed (cfg : Config) (tok : JsVal)
    (msg msg2 : String) (now now2 : Nat) :
    (enviarLogCloudWatch tok PutResult.invalidSequenceToken).delivered = false ∧
    (enviarLogCloudWatch tok PutResult.invalidSequenceToken).newToken = tok ∧
    (enviarLogCloudWatch tok PutResult.invalidSequenceToken).threw = false ∧
    presented (buildPutParams cfg
        (enviarLogCloudWatch tok PutResult.invalidSequenceToken).newToken msg2 now2).sequenceToken
      = presented (buildPutParams cfg tok msg now).sequenceToken := by
  exact ⟨rfl, rfl, rfl, rfl⟩

/-- C3 counterexample: with an extra-fields object carrying a `level` key,
`gerarLog` emits that extra value for `level`, not the level constant of the
call — the spread of `extra` overwrites the reserved field. -/
theorem C3_overwrite_counterexample :
    gerarLog (JsVal.str "info") (JsVal.str "hello") (JsVal.str "/rota") extraOverride "level"
      = some (JsVal.str "overridden") ∧
    (JsVal.str "overridden" : JsVal) ≠ JsVal.str "info" := by
  exact ⟨rfl, by decide⟩

/-- C3 (amended): `gerarLog` spreads `extra` after the reserved keys, so on a
key collision the extra value overwrites the reserved field; the reserved
fields `level`, `message` and `route` equal the call arguments only for keys
absent from `extra`. -/
theorem C3_extra_overwrites_reserved (level message rota : JsVal) (extra : EventObj) :
    (∀ k v, extra k = some v → gerarLog level message rota extra k = some v) ∧
    (extra "level" = none → gerarLog level message rota extra "level" = some level) ∧
    (extra "message" = none → gerarLog level message rota extra "message" = some message) ∧
    (extra "route" = none → gerarLog level message rota extra "route" = some rota) := by
  refine ⟨fun k v hv => ?_, fun h => ?_, fun h => ?_, fun h => ?_⟩ <;>
    simp [gerarLog, *]

/-- C3 witness: the amended theorem evaluated at a concrete call whose extras
carry a `level` key: the extra value wins on `level`, and the call arguments
survive for `message`. -/
theorem C3_extra_overwrites_reserved_witness :
    gerarLog (JsVal.str "info") (JsVal.str "m") (JsVal.str "/r") extraOverride "level"
      = some (JsVal.str "overridden") ∧
    gerarLog (JsVal.str "info") (JsVal.str "m") (JsVal.str "/r") extraOverride "message"
      = some (JsVal.str "m") := by
  refine ⟨(C3_extra_overwrites_reserved _ _ _ _).1 "level" _ rfl,
    (C3_extra_overwrites_reserved _ _ _ _).2.2.1 rfl⟩

/-- C4 counterexample: with configured stream name `"app-stream"` and a
describe response listing only the stream `"app-stream-old"` (a prefix match,
not the exact name), no stream with the exact configured name exists, yet
`ensureCloudWatchSetup` does not create the stream and stores that other
stream's token `"tokZ"`. -/
theorem C4_exact_name_counterexample :
    (∀ s ∈ respNearMiss.logStreams, s.logStreamName ≠ cfgA.LOG_STREAM_NAME) ∧
    (ensureCloudWatchSetup cfgA JsVal.null respNearMiss).createdStream = false ∧
    (ensureCloudWatchSetup cfgA JsVal.null respNearMiss).newToken = JsVal.str "tokZ" := by
  refine ⟨?_, rfl, rfl⟩
  decide

/-- C4 (amended): `ensureCloudWatchSetup` creates the stream iff the
prefix-filtered stream-describe response is the empty list — not iff no
stream with the exact configured name exists — and when the list is
non-empty it stores the upload sequence token of the first listed stream,
whether or not that stream bears the exact configured name. -/
theorem C4_creates_iff_describe_empty (cfg : Config) (tok : JsVal) (resp : DescribeResponses) :
    ((ensureCloudWatchSetup cfg tok resp).createdStream = true ↔ resp.logStreams = []) ∧
    (∀ s rest, resp.logStreams = s :: rest →
      (ensureCloudWatchSetup cfg tok resp).newToken = jsOfOpt s.uploadSequenceToken) := by
  unfold ensureCloudWatchSetup
  rcases h : resp.logStreams with _ | ⟨s0, rest0⟩ <;> simp [h]

/-- C4 witness: the amended theorem evaluated at an empty describe response
(the stream is created) and at the near-miss response (the first listed
stream's token is stored). -/
theorem C4_creates_iff_describe_empty_witness :
    (ensureCloudWatchSetup cfgA JsVal.null respEmpty).createdStream = true ∧
    (ensureCloudWatchSetup cfgA JsVal.null respNearMiss).newToken = jsOfOpt (some "tokZ") := by
  refine ⟨(C4_creates_iff_describe_empty cfgA JsVal.null respEmpty).1.mpr rfl,
    (C4_creates_iff_describe_empty cfgA JsVal.null respNearMiss).2 _ [] rfl⟩

/-- C5: on an accepted append, the in-memory token after the call equals the
`nextSequenceToken` field of the store's response. -/
theorem C5_success_stores_next_token (tok : JsVal) (next : Option String) :
    (enviarLogCloudWatch tok (PutResult.success next)).newToken = jsOfOpt next := rfl

/-- C6: every request built by `enviarLogCloudWatch` carries exactly one
event; when the in-memory token is `null` the request presents no sequence
token on the wire; and a successful first append from the `null`-token state
delivers the event and stores the token the store returned. -/
theorem C6_single_event_null_token_omitted (cfg : Config) (tok : JsVal)
    (msg : String) (now : Nat) (next : Option String) :
    (buildPutParams cfg tok msg now).logEvents.length = 1 ∧
    presented (buildPutParams cfg JsVal.null msg now).sequenceToken = none ∧
    (enviarLogCloudWatch JsVal.null (PutResult.success next)).delivered = true ∧
    (enviarLogCloudWatch JsVal.null (PutResult.success next)).newToken = jsOfOpt next := by
  exact ⟨rfl, rfl, rfl, rfl⟩

/-- C7: evaluating `logInfo` at the failing input used by `server.js`
(`logInfo("MongoDB conectado", null)`): the unguarded `req.originalUrl`
access throws a `TypeError` instead of building an event with an empty
route. -/
theorem C7_logInfo_null_ctx_throws :
    logInfoEvent (JsVal.str "MongoDB conectado") ReqCtx.null emptyExtra
      = Except.error "TypeError: cannot read originalUrl of null" := rfl

/-- C8: `logError` with a literally `null` request context computes the empty
string as the url, and (for extras without a `route` key) the emitted event
carries level `"error"`, the given message, and an empty-string route, for
either branch of the error-field assignment. -/
theorem C8_logError_null_ctx_empty_route (message error : JsVal) (extra : EventObj)
    (hr : extra "route" = none) (hl : extra "level" = none) :
    logErrorUrl ReqCtx.null = JsVal.str "" ∧
    logErrorEvent message ReqCtx.null error extra "route" = some (JsVal.str "") ∧
    logErrorEvent message ReqCtx.null error extra "level" = some (JsVal.str "error") := by
  refine ⟨rfl, ?_, ?_⟩ <;>
    · unfold logErrorEvent
      cases h : truthy error <;> simp [h, gerarLog, logErrorUrl, hr, hl]

/-- C8 witness: the theorem evaluated at the concrete call
`logError("boom", null)` with the default error object and empty extras. -/
theorem C8_logError_null_ctx_empty_route_witness :
    logErrorEvent (JsVal.str "boom") ReqCtx.null JsVal.emptyObj emptyExtra "route"
      = some (JsVal.str "") :=
  (C8_logError_null_ctx_empty_route (JsVal.str "boom") JsVal.emptyObj emptyExtra rfl rfl).2.1

/-- C9: once the in-memory token is non-`null`, neither provisioning (with
any describe response), nor a successful append, nor a failed append ever
sets it back to `null`; moreover an undelivered append leaves the token
exactly unchanged, so the only effective writes are the describe-response
read and the store's returned token after a successful append. -/
theorem C9_token_never_reset_to_null (cfg : Config) (tok : JsVal)
    (h : tok ≠ JsVal.null) (resp : DescribeResponses) (res : PutResult) :
    (ensureCloudWatchSetup cfg tok resp).newToken ≠ JsVal.null ∧
    (enviarLogCloudWatch tok res).newToken ≠ JsVal.null ∧
    ((enviarLogCloudWatch tok res).delivered = false →
      (enviarLogCloudWatch tok res).newToken = tok) := by
  refine ⟨?_, ?_, ?_⟩
  · unfold ensureCloudWatchSetup
    rcases resp.logStreams with _ | ⟨s0, rest0⟩
    · exact h
    · exact jsOfOpt_ne_null s0.uploadSequenceToken
  · cases res with
    | success next => exact jsOfOpt_ne_null next
    | invalidSequenceToken => exact h
    | otherError => exact h
  · cases res with
    | success next => intro hd; simp [enviarLogCloudWatch] at hd
    | invalidSequenceToken => intro _; rfl
    | otherError => intro _; rfl

/-- C9 witness: the theorem evaluated at the non-`null` token `"a"`, the
near-miss describe response and a rejected append. -/
theorem C9_token_never_reset_to_null_witness :
    (JsVal.str "a" ≠ JsVal.null) ∧
    (ensureCloudWatchSetup cfgA (JsVal.str "a") respNearMiss).newToken ≠ JsVal.null ∧
    (enviarLogCloudWatch (JsVal.str "a") PutResult.invalidSequenceToken).newToken ≠ JsVal.null := by
  refine ⟨by decide,
    (C9_token_never_reset_to_null cfgA (JsVal.str "a") (by decide) respNearMiss
      PutResult.invalidSequenceToken).1,
    (C9_token_never_reset_to_null cfgA (JsVal.str "a") (by decide) respNearMiss
      PutResult.invalidSequenceToken).2.1⟩

/-- C10: `logError` with an `undefined` (absent) request context does not
throw — the guard `req !== null` sends it into the optional-chaining branch —
but the computed url, and hence the event's route field (for extras without a
`route` key), is the JS value `undefined`, not the empty string. -/
theorem C10_logError_undef_ctx_route_undefined (message error : JsVal) (extra : EventObj)
    (hr : extra "route" = none) :
    logErrorUrl ReqCtx.undef = JsVal.undef ∧
    logErrorEvent message ReqCtx.undef error extra "route" = some JsVal.undef ∧
    logErrorEvent message ReqCtx.undef error extra "route" ≠ some (JsVal.str "") := by
  have hro : logErrorEvent message ReqCtx.undef error extra "route" = some JsVal.undef := by
    unfold logErrorEvent
    cases h : truthy error <;> simp [h, gerarLog, logErrorUrl, hr]
  refine ⟨rfl, hro, ?_⟩
  rw [hro]
  decide

/-- C10 witness: the theorem evaluated at the concrete call
`logError("boom", undefined)` with the default error object and empty
extras. -/
theorem C10_logError_undef_ctx_route_undefined_witness :
    logErrorEvent (JsVal.str "boom") ReqCtx.undef JsVal.emptyObj emptyExtra "route"
      = some JsVal.undef :=
  (C10_logError_undef_ctx_route_undefined (JsVal.str "boom") JsVal.emptyObj emptyExtra rfl).2.1
